import Mathlib

/-!
# Verification of the `amplitude-pga` plugin (seiscomp-programming-templates)

Shallow embedding of `src/amplitude-pga/plugin.cpp`: the two-component
combiner, `PGAProcessor::setup`, `PGAProcessor::feed` and
`PGAProcessor::computeAmplitude`.  Sample values are modelled as rationals
(reals for the Euclidean-norm combiner, which takes a square root).
External SeisComP collaborators (the base-class `AmplitudeProcessor::setup`,
`AmplitudeProcessor::feed` and the filter registry `Filter::Create`) are
modelled as oracles carried in the settings / passed as parameters.
-/

/-- Processor status values used by the plugin via `setStatus`:
`Error` (empty channel code), `MissingGain`, `ConfigurationError`, `LowSNR`.
Names follow the `WaveformProcessor` status enumerators used in the code. -/
inductive SCStatus where
  | Error
  | MissingGain
  | ConfigurationError
  | LowSNR
  deriving DecidableEq, Repr

/-- Modelled from the spec: `find_absmax` is SeisComP library code (not under
`src/`).  The spec describes it as locating the sample index within the
sub-range `[i1, i2)` whose absolute deviation from `offset` is maximal, ties
broken by first occurrence in time order.  This is the scan loop: `best`
is the current peak index, `j` the next index to examine, `k` the number of
indices still to examine; a later index replaces `best` only on a strictly
larger deviation. -/
def findAbsmaxAux (dev : ℕ → ℚ) : ℕ → ℕ → ℕ → ℕ
  | best, _, 0 => best
  | best, j, k+1 => findAbsmaxAux dev (if dev best < dev j then j else best) (j+1) k

/-- Modelled from the spec: entry point of the peak scan over `[i1, i2)`.
The initial peak index is `i1` and the scan proceeds over `i1+1, ..., i2-1`. -/
def find_absmax (data : List ℚ) (i1 i2 : ℕ) (offset : ℚ) : ℕ :=
  findAbsmaxAux (fun j => |data.getD j 0 - offset|) i1 (i1 + 1) (i2 - (i1 + 1))

/-- Result of `PGAProcessor::computeAmplitude`: the returned boolean, the
peak index (`dt->index`), the amplitude value (`amplitude->value`), the
`period` and `snr` output parameters, and the status set via `setStatus`
(with its numeric payload), `none` when no status is set. -/
structure CAResult where
  ok : Bool
  index : ℕ
  value : ℚ
  period : ℚ
  snr : ℚ
  status : Option (SCStatus × ℚ)
  deriving DecidableEq, Repr

/-- Embedding of `PGAProcessor::computeAmplitude` (plugin.cpp:238-264).
`i1`/`i2` are the noise-window indices (unused by the code, which takes the
noise amplitude `noiseAmplitude` precomputed by the base class), `si1`/`si2`
the signal-window sub-range, `snrMin` the configured minimum SNR threshold. -/
def computeAmplitude (data : List ℚ) (_i1 _i2 : ℕ) (si1 si2 : ℕ) (offset : ℚ)
    (noiseAmplitude snrMin : ℚ) : CAResult :=
  let index := find_absmax data si1 si2 offset
  let value := |data.getD index 0 - offset|
  let snr := if noiseAmplitude = 0 then (-1 : ℚ) else value / noiseAmplitude
  if snr < snrMin then
    ⟨false, index, value, -1, snr, some (.LowSNR, snr)⟩
  else
    ⟨true, index, value, -1, snr, none⟩

/-- Embedding of the two-component combiner `ComponentCombiner<T, 2>`
(plugin.cpp:72-83): per sample index `i`, output channel 0 receives
`sqrt(data[0][i]*data[0][i] + data[1][i]*data[1][i])`.  Time-aligned input
channels are modelled as two lists zipped sample-wise. -/
noncomputable def componentCombiner2 (a b : List ℝ) : List ℝ :=
  List.zipWith (fun x y => Real.sqrt (x * x + y * y)) a b

/-- Embedding of `ComponentCombiner<T, 2>::publish` (plugin.cpp:80):
`return c == 0;`. -/
def componentCombiner2_publish (c : ℤ) : Bool := c == 0

/-- The waveform operator installed by `setup` via `setOperator`: either the
plain combiner wrapper (no pre-filter) or the `FilterWrapper` combination
carrying the pre-filter built from its specification string. -/
inductive OperatorRep where
  | plain
  | withPreFilter (spec : String)
  deriving DecidableEq, Repr

/-- The `PGAProcessor` state visible to the embedded `setup` and `feed`:
the installed waveform operator (`setOperator`), the installed post-filter
(`setFilter`, identified by its specification string), and the last status
set via `setStatus` with its numeric payload. -/
structure ProcState where
  op : Option OperatorRep
  filter : Option String
  status : Option (SCStatus × ℚ)
  deriving DecidableEq, Repr

/-- Static configuration of one horizontal channel (`_streamConfig[i]`). -/
structure StreamConfig where
  code : String
  gain : ℚ
  gainUnit : String

/-- The inputs `setup` consumes: the outcome of the external base-class
`AmplitudeProcessor::setup` (modelled as an oracle boolean), the two
horizontal stream configurations, the resolved pre- and post-filter
specification strings (empty when the configuration key is absent, as the
code leaves the string empty when `getString` throws), and the filter
registry `Filter::Create` modelled as an oracle from specification strings
to success or an error text. -/
structure Settings where
  baseOk : Bool
  sc1 : StreamConfig
  sc2 : StreamConfig
  preFilter : String
  postFilter : String
  createFilter : String → Except String Unit

/-- The `SEISCOMP_ERROR` log calls issued by `setup`, with the exact
arguments the code passes to each format string. -/
inductive LogEntry where
  | componentCodeEmpty (i : ℕ)
  | componentGainMissing (i : ℕ)
  | gainUnitMismatch (u1 u2 : String)
  | failedCreatePreFilter (spec err : String)
  | failedCreateFilter (spec err : String)
  deriving DecidableEq, Repr

/-- Outcome of `setup`: the returned boolean, the resulting processor state
and the error-log entries issued. -/
structure SetupResult where
  ok : Bool
  state : ProcState
  log : List LogEntry
  deriving DecidableEq, Repr

/-- Embedding of the post-filter step of `setup` (plugin.cpp:208-219),
reached after the operator has been installed: an empty `postFilter` string
is "feature disabled"; otherwise `Filter::Create` failure sets
`ConfigurationError` (payload 3) and — faithful to the code at
plugin.cpp:213 — logs the PRE-filter string with the registry error text. -/
def setupPostFilter (s1 : ProcState) (st : Settings) : SetupResult :=
  if st.postFilter ≠ "" then
    match st.createFilter st.postFilter with
    | .error e =>
        ⟨false, { s1 with status := some (.ConfigurationError, 3) },
          [.failedCreateFilter st.preFilter e]⟩
    | .ok _ => ⟨true, { s1 with filter := some st.postFilter }, []⟩
  else
    ⟨true, s1, []⟩

/-- Embedding of `PGAProcessor::setup` (plugin.cpp:121-222).  It first
resets operator and filter (`setOperator(nullptr); setFilter(nullptr)`),
then runs the base-class setup, then checks each horizontal channel in
order (empty code → `Error`, zero gain → `MissingGain`), then the gain-unit
match (`ConfigurationError`, payload 1), then builds the pre-filter when
configured (`Filter::Create` failure → `ConfigurationError`, payload 2),
installs the operator, and finally builds the post-filter. -/
def setup (prev : ProcState) (st : Settings) : SetupResult :=
  let s0 : ProcState := { prev with op := none, filter := none }
  if st.baseOk = false then
    ⟨false, s0, []⟩
  else if st.sc1.code = "" then
    ⟨false, { s0 with status := some (.Error, 0) }, [.componentCodeEmpty 0]⟩
  else if st.sc1.gain = 0 then
    ⟨false, { s0 with status := some (.MissingGain, 0) }, [.componentGainMissing 0]⟩
  else if st.sc2.code = "" then
    ⟨false, { s0 with status := some (.Error, 1) }, [.componentCodeEmpty 1]⟩
  else if st.sc2.gain = 0 then
    ⟨false, { s0 with status := some (.MissingGain, 1) }, [.componentGainMissing 1]⟩
  else if st.sc1.gainUnit ≠ st.sc2.gainUnit then
    ⟨false, { s0 with status := some (.ConfigurationError, 1) },
      [.gainUnitMismatch st.sc1.gainUnit st.sc2.gainUnit]⟩
  else if st.preFilter ≠ "" then
    match st.createFilter st.preFilter with
    | .error e =>
        ⟨false, { s0 with status := some (.ConfigurationError, 2) },
          [.failedCreatePreFilter st.preFilter e]⟩
    | .ok _ => setupPostFilter { s0 with op := some (.withPreFilter st.preFilter) } st
  else
    setupPostFilter { s0 with op := some .plain } st

/-- Embedding of `PGAProcessor::feed` (plugin.cpp:225-232): when no
operator is installed it logs and returns `false` without touching the
state; otherwise it forwards to the external `AmplitudeProcessor::feed`,
whose outcome is the oracle `base`. -/
def feed (s : ProcState) (base : Bool) : Bool × ProcState :=
  if s.op = none then (false, s) else (base, s)

/-- The status kind stored in a processor state, payload dropped. -/
def statusKind (s : ProcState) : Option SCStatus := s.status.map Prod.fst

section ArgmaxScan

/-- Invariant-carrying specification of the scan loop `findAbsmaxAux`:
starting from a current best index that dominates every index of `[lo, j)`
(strictly dominating every index below itself), the scan returns the first
index of maximal deviation in `[lo, j + k)`. -/
theorem findAbsmaxAux_spec (dev : ℕ → ℚ) (lo : ℕ) :
    ∀ (k best j : ℕ), lo ≤ best → best < j →
    (∀ m, lo ≤ m → m < j → dev m ≤ dev best) →
    (∀ m, lo ≤ m → m < best → dev m < dev best) →
    lo ≤ findAbsmaxAux dev best j k ∧
    findAbsmaxAux dev best j k < j + k ∧
    (∀ m, lo ≤ m → m < j + k → dev m ≤ dev (findAbsmaxAux dev best j k)) ∧
    (∀ m, lo ≤ m → m < findAbsmaxAux dev best j k →
      dev m < dev (findAbsmaxAux dev best j k)) := by
  intro k
  induction k with
  | zero =>
    intro best j hlo hbj hle hlt
    simp only [findAbsmaxAux, Nat.add_zero]
    exact ⟨hlo, hbj, hle, hlt⟩
  | succ k ih =>
    intro best j hlo hbj hle hlt
    have hstep : findAbsmaxAux dev best j (k+1)
        = findAbsmaxAux dev (if dev best < dev j then j else best) (j+1) k := rfl
    rw [hstep]
    by_cases hcmp : dev best < dev j
    · rw [if_pos hcmp]
      have h1 : lo ≤ j := le_trans hlo (le_of_lt hbj)
      have h2 : j < j + 1 := Nat.lt_succ_self j
      have h3 : ∀ m, lo ≤ m → m < j + 1 → dev m ≤ dev j := by
        intro m hm hmj
        rcases Nat.lt_succ_iff_lt_or_eq.mp hmj with hmj' | hmj'
        · exact le_trans (hle m hm hmj') (le_of_lt hcmp)
        · exact le_of_eq (congrArg dev hmj')
      have h4 : ∀ m, lo ≤ m → m < j → dev m < dev j := by
        intro m hm hmj
        exact lt_of_le_of_lt (hle m hm hmj) hcmp
      have := ih j (j+1) h1 h2 h3 h4
      rw [show j + (k + 1) = (j + 1) + k by omega]
      simpa using this
    · rw [if_neg hcmp]
      have h2 : best < j + 1 := Nat.lt_succ_of_lt hbj
      have h3 : ∀ m, lo ≤ m → m < j + 1 → dev m ≤ dev best := by
        intro m hm hmj
        rcases Nat.lt_succ_iff_lt_or_eq.mp hmj with hmj' | hmj'
        · exact hle m hm hmj'
        · rw [hmj']; exact le_of_not_lt hcmp
      have := ih best (j+1) hlo h2 h3 hlt
      rw [show j + (k + 1) = (j + 1) + k by omega]
      simpa using this

/-- The peak scan `find_absmax` over a nonempty range `[i1, i2)` returns an
index of that range attaining the maximal absolute deviation from `offset`,
and every strictly earlier in-range index has a strictly smaller deviation
(first occurrence wins ties). -/
theorem find_absmax_spec (data : List ℚ) (i1 i2 : ℕ) (offset : ℚ)
    (h12 : i1 < i2) :
    i1 ≤ find_absmax data i1 i2 offset ∧
    find_absmax data i1 i2 offset < i2 ∧
    (∀ m, i1 ≤ m → m < i2 →
      |data.getD m 0 - offset| ≤ |data.getD (find_absmax data i1 i2 offset) 0 - offset|) ∧
    (∀ m, i1 ≤ m → m < find_absmax data i1 i2 offset →
      |data.getD m 0 - offset| < |data.getD (find_absmax data i1 i2 offset) 0 - offset|) := by
  have hk : (i1 + 1) + (i2 - (i1 + 1)) = i2 := by omega
  have := findAbsmaxAux_spec (fun j => |data.getD j 0 - offset|) i1
    (i2 - (i1 + 1)) i1 (i1 + 1) (le_refl i1) (Nat.lt_succ_self i1)
    (by
      intro m hm hmj
      have : m = i1 := by omega
      rw [this])
    (by intro m hm hmb; omega)
  rw [hk] at this
  exact this

end ArgmaxScan

/-- C1: for every sample buffer, signal sub-range `[si1, si2)` and offset,
`computeAmplitude` returns as peak index an index of the sub-range whose
absolute deviation from `offset` is maximal (ties broken by first occurrence
in time order), sets the amplitude value to `|sample[peak] - offset|`, and
for a window whose samples all equal `offset` the amplitude is exactly 0. -/
theorem computeAmplitude_peak_spec (data : List ℚ) (i1 i2 si1 si2 : ℕ)
    (offset noiseAmplitude snrMin : ℚ) (r : CAResult)
    (hr : r = computeAmplitude data i1 i2 si1 si2 offset noiseAmplitude snrMin)
    (h12 : si1 < si2) (hlen : si2 ≤ data.length) :
    si1 ≤ r.index ∧ r.index < si2 ∧
    (∀ m, si1 ≤ m → m < si2 →
      |data.getD m 0 - offset| ≤ |data.getD r.index 0 - offset|) ∧
    (∀ m, si1 ≤ m → m < r.index →
      |data.getD m 0 - offset| < |data.getD r.index 0 - offset|) ∧
    r.value = |data.getD r.index 0 - offset| ∧
    ((∀ m, si1 ≤ m → m < si2 → data.getD m 0 = offset) → r.value = 0) := by
  subst hr
  have hidx : (computeAmplitude data i1 i2 si1 si2 offset noiseAmplitude snrMin).index
      = find_absmax data si1 si2 offset := by
    unfold computeAmplitude
    by_cases hsnr : (if noiseAmplitude = 0 then (-1 : ℚ)
        else |data.getD (find_absmax data si1 si2 offset) 0 - offset| / noiseAmplitude) < snrMin
    · simp only [hsnr, if_true]
    · simp only [hsnr, if_false]
  have hval : (computeAmplitude data i1 i2 si1 si2 offset noiseAmplitude snrMin).value
      = |data.getD (computeAmplitude data i1 i2 si1 si2 offset noiseAmplitude snrMin).index 0
          - offset| := by
    rw [hidx]
    unfold computeAmplitude
    by_cases hsnr : (if noiseAmplitude = 0 then (-1 : ℚ)
        else |data.getD (find_absmax data si1 si2 offset) 0 - offset| / noiseAmplitude) < snrMin
    · simp only [hsnr, if_true]
    · simp only [hsnr, if_false]
  obtain ⟨ha, hb, hc, hd⟩ := find_absmax_spec data si1 si2 offset h12
  rw [hval, hidx]
  refine ⟨ha, hb, hc, hd, rfl, ?_⟩
  intro hconst
  have := hconst (find_absmax data si1 si2 offset) ha hb
  rw [this, sub_self, abs_zero]

/-- Closed witness for `computeAmplitude_peak_spec`, at the four-sample
buffer `[0, 3, -5, 2]` with signal window `[1, 4)` and offset `0`. -/
theorem computeAmplitude_peak_spec_witness :
    (1 : ℕ) < 4 ∧ (4 : ℕ) ≤ ([0, 3, -5, 2] : List ℚ).length ∧
    (1 ≤ (computeAmplitude ([0, 3, -5, 2] : List ℚ) 0 1 1 4 0 1 1).index ∧
     (computeAmplitude ([0, 3, -5, 2] : List ℚ) 0 1 1 4 0 1 1).index < 4 ∧
     (∀ m, 1 ≤ m → m < 4 →
       |([0, 3, -5, 2] : List ℚ).getD m 0 - 0|
         ≤ |([0, 3, -5, 2] : List ℚ).getD
             (computeAmplitude ([0, 3, -5, 2] : List ℚ) 0 1 1 4 0 1 1).index 0 - 0|) ∧
     (∀ m, 1 ≤ m → m < (computeAmplitude ([0, 3, -5, 2] : List ℚ) 0 1 1 4 0 1 1).index →
       |([0, 3, -5, 2] : List ℚ).getD m 0 - 0|
         < |([0, 3, -5, 2] : List ℚ).getD
             (computeAmplitude ([0, 3, -5, 2] : List ℚ) 0 1 1 4 0 1 1).index 0 - 0|) ∧
     (computeAmplitude ([0, 3, -5, 2] : List ℚ) 0 1 1 4 0 1 1).value
       = |([0, 3, -5, 2] : List ℚ).getD
           (computeAmplitude ([0, 3, -5, 2] : List ℚ) 0 1 1 4 0 1 1).index 0 - 0| ∧
     ((∀ m, 1 ≤ m → m < 4 → ([0, 3, -5, 2] : List ℚ).getD m 0 = 0) →
       (computeAmplitude ([0, 3, -5, 2] : List ℚ) 0 1 1 4 0 1 1).value = 0)) :=
  ⟨by decide, by decide,
    computeAmplitude_peak_spec ([0, 3, -5, 2] : List ℚ) 0 1 1 4 0 1 1
      (computeAmplitude ([0, 3, -5, 2] : List ℚ) 0 1 1 4 0 1 1) rfl
      (by decide) (by decide)⟩

/-- C2: when the noise-window amplitude is exactly zero, `computeAmplitude`
reports the SNR as the sentinel `-1`, and the low-SNR gate rejects the
result if and only if the configured minimum threshold exceeds the
sentinel; on rejection the status is `LowSNR` with the sentinel payload. -/
theorem computeAmplitude_zeroNoise_sentinel (data : List ℚ) (i1 i2 si1 si2 : ℕ)
    (offset snrMin : ℚ) (r : CAResult)
    (hr : r = computeAmplitude data i1 i2 si1 si2 offset 0 snrMin) :
    r.snr = -1 ∧ (r.ok = false ↔ -1 < snrMin) ∧
    (r.ok = false → r.status = some (SCStatus.LowSNR, -1)) := by
  subst hr
  by_cases h : (-1 : ℚ) < snrMin
  · simp [computeAmplitude, h]
  · simp [computeAmplitude, h]

/-- C3: when the noise-window amplitude is nonzero, the SNR equals the peak
amplitude value divided by the noise amplitude, and whenever that SNR lies
below the configured minimum threshold, `computeAmplitude` returns failure
with the `LowSNR` status carrying the computed SNR as payload. -/
theorem computeAmplitude_snr_gate (data : List ℚ) (i1 i2 si1 si2 : ℕ)
    (offset noiseAmplitude snrMin : ℚ) (r : CAResult)
    (hr : r = computeAmplitude data i1 i2 si1 si2 offset noiseAmplitude snrMin)
    (h : noiseAmplitude ≠ 0) :
    r.snr = r.value / noiseAmplitude ∧
    (r.snr < snrMin → r.ok = false ∧ r.status = some (SCStatus.LowSNR, r.snr)) := by
  subst hr
  by_cases hlt : |data.getD (find_absmax data si1 si2 offset) 0 - offset|
      / noiseAmplitude < snrMin
  · simp only [computeAmplitude, if_neg h, if_pos hlt]
    simp
  · simp only [computeAmplitude, if_neg h, if_neg hlt]
    exact ⟨trivial, fun hcon => absurd hcon hlt⟩

/-- Closed witness for `computeAmplitude_snr_gate`: buffer `[0, 1]`, signal
window `[1, 2)`, noise amplitude `2`, threshold `3`; the computed SNR is
`1/2 < 3`, so the result is rejected with `LowSNR`. -/
theorem computeAmplitude_snr_gate_witness :
    (2 : ℚ) ≠ 0 ∧
    ((computeAmplitude ([0, 1] : List ℚ) 0 1 1 2 0 2 3).snr
       = (computeAmplitude ([0, 1] : List ℚ) 0 1 1 2 0 2 3).value / 2 ∧
     ((computeAmplitude ([0, 1] : List ℚ) 0 1 1 2 0 2 3).snr < 3 →
       (computeAmplitude ([0, 1] : List ℚ) 0 1 1 2 0 2 3).ok = false ∧
       (computeAmplitude ([0, 1] : List ℚ) 0 1 1 2 0 2 3).status
         = some (SCStatus.LowSNR, (computeAmplitude ([0, 1] : List ℚ) 0 1 1 2 0 2 3).snr))) :=
  ⟨by norm_num, computeAmplitude_snr_gate ([0, 1] : List ℚ) 0 1 1 2 0 2 3
    (computeAmplitude ([0, 1] : List ℚ) 0 1 1 2 0 2 3) rfl (by norm_num)⟩

/-- Auxiliary: an in-range `getD` of a `zipWith` is the function applied to
the `getD`s of the two lists. -/
theorem zipWith_getD_of_lt (f : ℝ → ℝ → ℝ) :
    ∀ (a b : List ℝ) (i : ℕ), i < (List.zipWith f a b).length →
    (List.zipWith f a b).getD i 0 = f (a.getD i 0) (b.getD i 0) := by
  intro a
  induction a with
  | nil => intro b i h; simp at h
  | cons x xs ih =>
    intro b i h
    cases b with
    | nil => simp at h
    | cons y ys =>
      cases i with
      | zero => simp
      | succ n =>
        simp only [List.zipWith_cons_cons, List.length_cons] at h
        simp only [List.zipWith_cons_cons, List.getD_cons_succ]
        exact ih ys n (Nat.lt_of_succ_lt_succ h)

/-- C4: at every in-range index the two-component combiner writes into
output channel 0 the Euclidean norm `sqrt(a[i]^2 + b[i]^2)`; at `a[i] = 0`
or `b[i] = 0` this reduces exactly to `|b[i]|` or `|a[i]|`; and only output
index 0 is declared valid for publishing. -/
theorem componentCombiner2_spec (a b : List ℝ) (i : ℕ)
    (h : i < (componentCombiner2 a b).length) :
    (componentCombiner2 a b).getD i 0
        = Real.sqrt (a.getD i 0 ^ 2 + b.getD i 0 ^ 2) ∧
    (a.getD i 0 = 0 → (componentCombiner2 a b).getD i 0 = |b.getD i 0|) ∧
    (b.getD i 0 = 0 → (componentCombiner2 a b).getD i 0 = |a.getD i 0|) ∧
    (∀ c : ℤ, componentCombiner2_publish c = true ↔ c = 0) := by
  have key : (componentCombiner2 a b).getD i 0
      = Real.sqrt (a.getD i 0 * a.getD i 0 + b.getD i 0 * b.getD i 0) :=
    zipWith_getD_of_lt (fun x y => Real.sqrt (x * x + y * y)) a b i h
  refine ⟨?_, ?_, ?_, ?_⟩
  · rw [key, pow_two, pow_two]
  · intro ha
    rw [key, ha, zero_mul, zero_add, Real.sqrt_mul_self_eq_abs]
  · intro hb
    rw [key, hb, mul_zero, add_zero, Real.sqrt_mul_self_eq_abs]
  · intro c
    simp [componentCombiner2_publish]

/-- Closed witness for `componentCombiner2_spec` at channels `[3]`, `[4]`
and index `0`. -/
theorem componentCombiner2_spec_witness :
    0 < (componentCombiner2 [(3 : ℝ)] [(4 : ℝ)]).length ∧
    ((componentCombiner2 [(3 : ℝ)] [(4 : ℝ)]).getD 0 0
        = Real.sqrt (([(3 : ℝ)].getD 0 0) ^ 2 + ([(4 : ℝ)].getD 0 0) ^ 2) ∧
     (([(3 : ℝ)].getD 0 0) = 0 →
       (componentCombiner2 [(3 : ℝ)] [(4 : ℝ)]).getD 0 0 = |[(4 : ℝ)].getD 0 0|) ∧
     (([(4 : ℝ)].getD 0 0) = 0 →
       (componentCombiner2 [(3 : ℝ)] [(4 : ℝ)]).getD 0 0 = |[(3 : ℝ)].getD 0 0|) ∧
     (∀ c : ℤ, componentCombiner2_publish c = true ↔ c = 0)) :=
  ⟨by simp [componentCombiner2], componentCombiner2_spec [(3 : ℝ)] [(4 : ℝ)] 0
    (by simp [componentCombiner2])⟩

/-- C5: calling `feed` while no operator is configured always fails
(returns `false`) and produces no side effects on the processor state,
whatever the external base-class feed would have returned. -/
theorem feed_requires_operator (s : ProcState) (base : Bool) (h : s.op = none) :
    feed s base = (false, s) := by
  unfold feed
  rw [if_pos h]

/-- Closed witness for `feed_requires_operator` at the pristine state. -/
theorem feed_requires_operator_witness :
    feed ⟨none, none, none⟩ true = (false, ⟨none, none, none⟩) :=
  feed_requires_operator ⟨none, none, none⟩ true rfl

/-- C6 counterexample: a configuration whose two horizontal channels carry
different gain units (`"M/S**2"` vs `"M/S"`) but whose first channel code
is empty fails setup with status `Error` (payload 0), not
`ConfigurationError`: the empty-code check precedes the gain-unit check. -/
theorem setup_unitMismatch_counterexample :
    let r := setup ⟨none, none, none⟩
      ⟨true, ⟨"", 1, "M/S**2"⟩, ⟨"HHE", 1, "M/S"⟩, "", "", fun _ => Except.ok ()⟩
    ("" : String) ≠ "M/S" ∧ ("M/S**2" : String) ≠ ("M/S" : String) ∧
    r.ok = false ∧ statusKind r.state = some SCStatus.Error ∧
    statusKind r.state ≠ some SCStatus.ConfigurationError := by
  refine ⟨by decide, by decide, ?_, ?_, ?_⟩ <;>
    simp [setup, statusKind]

/-- C6 (amended): provided the base-class setup succeeds and both required
horizontal channels pass their earlier checks (nonempty codes, nonzero
gains), mismatched gain units make `setup` fail with the
`ConfigurationError` status (payload 1) and neither filters nor the stream
operator are constructed. -/
theorem setup_unitMismatch_configurationError (prev : ProcState) (st : Settings)
    (hbase : st.baseOk = true) (hc1 : st.sc1.code ≠ "") (hg1 : st.sc1.gain ≠ 0)
    (hc2 : st.sc2.code ≠ "") (hg2 : st.sc2.gain ≠ 0)
    (hu : st.sc1.gainUnit ≠ st.sc2.gainUnit) :
    let r := setup prev st
    r.ok = false ∧ r.state.status = some (SCStatus.ConfigurationError, 1) ∧
    r.state.op = none ∧ r.state.filter = none := by
  simp [setup, hbase, hc1, hg1, hc2, hg2, hu]

/-- Closed witness for `setup_unitMismatch_configurationError`. -/
theorem setup_unitMismatch_configurationError_witness :
    (let st : Settings :=
       ⟨true, ⟨"HHN", 1, "M/S**2"⟩, ⟨"HHE", 1, "M/S"⟩, "", "", fun _ => Except.ok ()⟩
     st.baseOk = true ∧ st.sc1.code ≠ "" ∧ st.sc1.gain ≠ 0 ∧
     st.sc2.code ≠ "" ∧ st.sc2.gain ≠ 0 ∧ st.sc1.gainUnit ≠ st.sc2.gainUnit ∧
     (let r := setup ⟨none, none, none⟩ st
      r.ok = false ∧ r.state.status = some (SCStatus.ConfigurationError, 1) ∧
      r.state.op = none ∧ r.state.filter = none)) :=
  ⟨rfl, by decide, by decide, by decide, by decide, by decide,
    setup_unitMismatch_configurationError ⟨none, none, none⟩
      ⟨true, ⟨"HHN", 1, "M/S**2"⟩, ⟨"HHE", 1, "M/S"⟩, "", "", fun _ => Except.ok ()⟩
      rfl (by decide) (by decide) (by decide) (by decide) (by decide)⟩

/-- C8 counterexample: a configuration whose first required channel has
gain exactly zero but also an empty code fails setup with status `Error`
(payload 0), not `MissingGain`: the empty-code check precedes the gain
check. -/
theorem setup_zeroGain_counterexample :
    let r := setup ⟨none, none, none⟩
      ⟨true, ⟨"", 0, "M/S**2"⟩, ⟨"HHE", 1, "M/S**2"⟩, "", "", fun _ => Except.ok ()⟩
    r.ok = false ∧ statusKind r.state = some SCStatus.Error ∧
    statusKind r.state ≠ some SCStatus.MissingGain := by
  refine ⟨?_, ?_, ?_⟩ <;> simp [setup, statusKind]

/-- C8 (amended): provided the base-class setup succeeds and both required
channel codes are nonempty, a gain of exactly zero on a required horizontal
channel makes `setup` fail with the `MissingGain` status. -/
theorem setup_zeroGain_missingGain (prev : ProcState) (st : Settings)
    (hbase : st.baseOk = true) (hc1 : st.sc1.code ≠ "") (hc2 : st.sc2.code ≠ "")
    (hg : st.sc1.gain = 0 ∨ st.sc2.gain = 0) :
    let r := setup prev st
    r.ok = false ∧ statusKind r.state = some SCStatus.MissingGain := by
  by_cases hg1 : st.sc1.gain = 0
  · simp [setup, statusKind, hbase, hc1, hg1]
  · rcases hg with hg | hg
    · exact absurd hg hg1
    · simp [setup, statusKind, hbase, hc1, hg1, hc2, hg]

/-- Closed witness for `setup_zeroGain_missingGain`: zero gain on the
second horizontal channel. -/
theorem setup_zeroGain_missingGain_witness :
    (let st : Settings :=
       ⟨true, ⟨"HHN", 1, "M/S**2"⟩, ⟨"HHE", 0, "M/S**2"⟩, "", "", fun _ => Except.ok ()⟩
     st.baseOk = true ∧ st.sc1.code ≠ "" ∧ st.sc2.code ≠ "" ∧
     (st.sc1.gain = 0 ∨ st.sc2.gain = 0) ∧
     (let r := setup ⟨none, none, none⟩ st
      r.ok = false ∧ statusKind r.state = some SCStatus.MissingGain)) :=
  ⟨rfl, by decide, by decide, Or.inr (by decide),
    setup_zeroGain_missingGain ⟨none, none, none⟩
      ⟨true, ⟨"HHN", 1, "M/S**2"⟩, ⟨"HHE", 0, "M/S**2"⟩, "", "", fun _ => Except.ok ()⟩
      rfl (by decide) (by decide) (Or.inr (by decide))⟩

/-- C9 counterexample: a configuration whose second required channel has an
empty code but whose first channel has gain zero fails setup with status
`MissingGain` (payload 0), not the empty-channel `Error` kind: the per-
channel checks run in order and the gain check of the first channel fires
first. -/
theorem setup_emptyCode_counterexample :
    let r := setup ⟨none, none, none⟩
      ⟨true, ⟨"HHN", 0, "M/S**2"⟩, ⟨"", 1, "M/S**2"⟩, "", "", fun _ => Except.ok ()⟩
    r.ok = false ∧ statusKind r.state = some SCStatus.MissingGain ∧
    statusKind r.state ≠ some SCStatus.Error := by
  refine ⟨?_, ?_, ?_⟩ <;> simp [setup, statusKind]

/-- C9 (amended): provided the base-class setup succeeds, an empty code on
the first required channel makes `setup` fail with status `Error` (payload
0); and when the first channel passes its checks, an empty code on the
second required channel makes `setup` fail with status `Error` (payload 1).
The `Error` status is the `EmptyChannelIdentifier` kind of the taxonomy. -/
theorem setup_emptyCode_error (prev : ProcState) (st : Settings)
    (hbase : st.baseOk = true) :
    let r := setup prev st
    (st.sc1.code = "" → r.ok = false ∧ r.state.status = some (SCStatus.Error, 0)) ∧
    (st.sc1.code ≠ "" → st.sc1.gain ≠ 0 → st.sc2.code = "" →
      r.ok = false ∧ r.state.status = some (SCStatus.Error, 1)) := by
  constructor
  · intro h1
    simp [setup, hbase, h1]
  · intro h1 h2 h3
    simp [setup, hbase, h1, h2, h3]

/-- Closed witness for `setup_emptyCode_error`: first channel code empty. -/
theorem setup_emptyCode_error_witness :
    (let st : Settings :=
       ⟨true, ⟨"", 1, "M/S**2"⟩, ⟨"HHE", 1, "M/S**2"⟩, "", "", fun _ => Except.ok ()⟩
     st.baseOk = true ∧
     (let r := setup ⟨none, none, none⟩ st
      (st.sc1.code = "" → r.ok = false ∧ r.state.status = some (SCStatus.Error, 0)) ∧
      (st.sc1.code ≠ "" → st.sc1.gain ≠ 0 → st.sc2.code = "" →
        r.ok = false ∧ r.state.status = some (SCStatus.Error, 1)))) :=
  ⟨rfl, setup_emptyCode_error ⟨none, none, none⟩
    ⟨true, ⟨"", 1, "M/S**2"⟩, ⟨"HHE", 1, "M/S**2"⟩, "", "", fun _ => Except.ok ()⟩ rfl⟩

/-- C7: with an absent pre-filter and the malformed post-filter
specification `"XY("` (which the registry rejects with error text
`"parse failed"`), `setup` fails with the `ConfigurationError` status
(payload 3), but the failure log carries the pre-filter string `""`
instead of the offending post-filter string `"XY("` — the code at
plugin.cpp:213 passes `preFilter` to the format string. -/
theorem setup_postFilter_reports_wrong_string (r : SetupResult)
    (hr : r = setup ⟨none, none, none⟩
      ⟨true, ⟨"HHN", 1, "M/S**2"⟩, ⟨"HHE", 1, "M/S**2"⟩, "", "XY(",
        fun s => if s = "XY(" then Except.error "parse failed" else Except.ok ()⟩) :
    r.ok = false ∧ r.state.status = some (SCStatus.ConfigurationError, 3) ∧
    r.log = [LogEntry.failedCreateFilter "" "parse failed"] ∧
    r.log ≠ [LogEntry.failedCreateFilter "XY(" "parse failed"] := by
  subst hr
  refine ⟨?_, ?_, ?_, ?_⟩ <;> simp [setup, setupPostFilter]

/-- Closed witness for `setup_postFilter_reports_wrong_string` at the
concrete setup result itself. -/
theorem setup_postFilter_reports_wrong_string_witness :
    ((setup ⟨none, none, none⟩
      ⟨true, ⟨"HHN", 1, "M/S**2"⟩, ⟨"HHE", 1, "M/S**2"⟩, "", "XY(",
        fun s => if s = "XY(" then Except.error "parse failed" else Except.ok ()⟩).ok = false ∧
     (setup ⟨none, none, none⟩
      ⟨true, ⟨"HHN", 1, "M/S**2"⟩, ⟨"HHE", 1, "M/S**2"⟩, "", "XY(",
        fun s => if s = "XY(" then Except.error "parse failed" else Except.ok ()⟩).state.status
       = some (SCStatus.ConfigurationError, 3) ∧
     (setup ⟨none, none, none⟩
      ⟨true, ⟨"HHN", 1, "M/S**2"⟩, ⟨"HHE", 1, "M/S**2"⟩, "", "XY(",
        fun s => if s = "XY(" then Except.error "parse failed" else Except.ok ()⟩).log
       = [LogEntry.failedCreateFilter "" "parse failed"] ∧
     (setup ⟨none, none, none⟩
      ⟨true, ⟨"HHN", 1, "M/S**2"⟩, ⟨"HHE", 1, "M/S**2"⟩, "", "XY(",
        fun s => if s = "XY(" then Except.error "parse failed" else Except.ok ()⟩).log
       ≠ [LogEntry.failedCreateFilter "XY(" "parse failed"]) :=
  setup_postFilter_reports_wrong_string
    (setup ⟨none, none, none⟩
      ⟨true, ⟨"HHN", 1, "M/S**2"⟩, ⟨"HHE", 1, "M/S**2"⟩, "", "XY(",
        fun s => if s = "XY(" then Except.error "parse failed" else Except.ok ()⟩) rfl

/-- C10 counterexample: with a valid channel configuration, no pre-filter
and a malformed post-filter, `setup` fails, but the freshly built stream
operator has already been installed, so a subsequent `feed` is NOT
rejected — it forwards to the base class (here returning its outcome
`true`). -/
theorem setup_failure_feed_not_rejected_counterexample :
    let r := setup ⟨none, none, none⟩
      ⟨true, ⟨"HHN", 1, "M/S**2"⟩, ⟨"HHE", 1, "M/S**2"⟩, "", "XY(",
        fun s => if s = "XY(" then Except.error "parse failed" else Except.ok ()⟩
    r.ok = false ∧ r.state.op = some OperatorRep.plain ∧
    feed r.state true = (true, r.state) := by
  refine ⟨?_, ?_, ?_⟩ <;> simp [setup, setupPostFilter, feed]

/-- C10 (amended): `setup` discards the previously configured operator and
post-filter before any validation (its outcome never depends on them), and
after any failed `setup` the post-filter is unset and either no operator is
installed — so every subsequent `feed` is rejected — or the failure
happened at post-filter construction (status `ConfigurationError`, payload
3), where the freshly built operator has already been installed. -/
theorem setup_reset_and_failure_blocks_feed (prev : ProcState) (st : Settings)
    (base : Bool) :
    setup prev st = setup ⟨none, none, prev.status⟩ st ∧
    ((setup prev st).ok = false →
      (setup prev st).state.filter = none ∧
      ((setup prev st).state.op = none ∧
        feed (setup prev st).state base = (false, (setup prev st).state) ∨
       (setup prev st).state.status = some (SCStatus.ConfigurationError, 3))) := by
  refine ⟨rfl, ?_⟩
  intro hfail
  by_cases h1 : st.baseOk = false
  · simp [setup, feed, h1]
  · by_cases h2 : st.sc1.code = ""
    · simp [setup, feed, h1, h2]
    · by_cases h3 : st.sc1.gain = 0
      · simp [setup, feed, h1, h2, h3]
      · by_cases h4 : st.sc2.code = ""
        · simp [setup, feed, h1, h2, h3, h4]
        · by_cases h5 : st.sc2.gain = 0
          · simp [setup, feed, h1, h2, h3, h4, h5]
          · by_cases h6 : st.sc1.gainUnit = st.sc2.gainUnit
            · by_cases h7 : st.preFilter = ""
              · by_cases h8 : st.postFilter = ""
                · simp [setup, setupPostFilter, h1, h2, h3, h4, h5, h6, h7, h8] at hfail
                · rcases hcf : st.createFilter st.postFilter with e | u
                  · simp [setup, setupPostFilter, h1, h2, h3, h4, h5, h6, h7, h8, hcf]
                  · simp [setup, setupPostFilter, h1, h2, h3, h4, h5, h6, h7, h8, hcf] at hfail
              · rcases hpf : st.createFilter st.preFilter with e | u
                · simp [setup, feed, h1, h2, h3, h4, h5, h6, h7, hpf]
                · by_cases h8 : st.postFilter = ""
                  · simp [setup, setupPostFilter, h1, h2, h3, h4, h5, h6, h7, h8, hpf] at hfail
                  · rcases hcf : st.createFilter st.postFilter with e | u
                    · simp [setup, setupPostFilter, h1, h2, h3, h4, h5, h6, h7, h8, hpf, hcf]
                    · simp [setup, setupPostFilter, h1, h2, h3, h4, h5, h6, h7, h8, hpf, hcf] at hfail
            · simp [setup, feed, h1, h2, h3, h4, h5, h6]

/-- Closed witness for `setup_reset_and_failure_blocks_feed` at a concrete
previous state, settings and base-feed outcome. -/
theorem setup_reset_and_failure_blocks_feed_witness :
    (let prev : ProcState := ⟨some OperatorRep.plain, some "OLD", none⟩
     let st : Settings :=
       ⟨false, ⟨"HHN", 1, "M/S**2"⟩, ⟨"HHE", 1, "M/S**2"⟩, "", "", fun _ => Except.ok ()⟩
     setup prev st = setup ⟨none, none, prev.status⟩ st ∧
     ((setup prev st).ok = false →
       (setup prev st).state.filter = none ∧
       ((setup prev st).state.op = none ∧
         feed (setup prev st).state true = (false, (setup prev st).state) ∨
        (setup prev st).state.status = some (SCStatus.ConfigurationError, 3)))) :=
  setup_reset_and_failure_blocks_feed ⟨some OperatorRep.plain, some "OLD", none⟩
    ⟨false, ⟨"HHN", 1, "M/S**2"⟩, ⟨"HHE", 1, "M/S**2"⟩, "", "", fun _ => Except.ok ()⟩ true

/-- Closed witness for `computeAmplitude_zeroNoise_sentinel` at buffer
`[0, 3]`, signal window `[1, 2)`, zero noise amplitude and threshold `1`. -/
theorem computeAmplitude_zeroNoise_sentinel_witness :
    ((computeAmplitude ([0, 3] : List ℚ) 0 1 1 2 0 0 1).snr = -1 ∧
     ((computeAmplitude ([0, 3] : List ℚ) 0 1 1 2 0 0 1).ok = false ↔ -1 < (1 : ℚ)) ∧
     ((computeAmplitude ([0, 3] : List ℚ) 0 1 1 2 0 0 1).ok = false →
       (computeAmplitude ([0, 3] : List ℚ) 0 1 1 2 0 0 1).status
         = some (SCStatus.LowSNR, -1))) :=
  computeAmplitude_zeroNoise_sentinel ([0, 3] : List ℚ) 0 1 1 2 0 1
    (computeAmplitude ([0, 3] : List ℚ) 0 1 1 2 0 0 1) rfl
